import Mathlib

/-!
# Verification of the `anthemav_x00` AVR protocol handler

Shallow embedding of `anthemav_x00/protocol.py` (the `AVR` class): the
attribute registry, the frame decoder (`data_received` / `_assemble_buffer`),
the message interpreter (`_parse_message`), the power-on reconciliation loop
(`poweron_refresh` / `refresh_all`), the command/query encoder
(`query` / `command` / `formatted_command`) and the derived getters and
setters (attenuation, volume, power, mute, input number).

Modelling conventions:
* Python strings are Lean `String`s; for the frame decoder, where the proofs
  are about splitting character streams, the buffer is modelled as
  `List Char` (the character sequence of the Python `str`).
* The asyncio event loop is modelled by explicit effect logs on the state:
  `scheduled` records `loop.call_later(delay, cb)` calls,
  `notifications` records `loop.call_soon(update_callback, data)` calls,
  and `transport` is `none` (no transport) or `some writes` where `writes`
  is the list of strings handed to `transport.write` (encoded to UTF-8
  bytes on the wire), in order.
* Python exceptions are modelled with `Except PyError`; a `try/except`
  that swallows the exception is modelled by matching on the `Except`
  result and returning the unchanged state.
* Python floats in the volume conversions are IEEE-754 binary64 values,
  modelled by their exact rational values: each arithmetic operation is the
  exact rational operation followed by rounding to the nearest
  representable double (round to nearest, ties to even), and Python 3
  `round` rounds the exact value of the double half-to-even.
-/

namespace Anthemav

/-- Python exception kinds that the modelled code can raise. -/
inductive PyError
  | attributeError
  | nameError
deriving DecidableEq

/-- Callbacks that the handler passes to `loop.call_later`. -/
inductive Scheduled
  | poweronRefreshCb
deriving DecidableEq

/-!
## Frame decoder (`data_received` / `_assemble_buffer`), frame level

`data_received` appends the decoded chunk to `self.buffer`; then
`_assemble_buffer` iterates over `self.buffer.split(';')`, passes every
non-empty segment to `_parse_message`, and sets `self.buffer = ""`.
Here we model just the framing: the buffer and the ordered list of
messages passed on for interpretation.
-/

/-- Python `str.split(';')`: the list of (possibly empty) maximal
`';'`-free segments.  `splitOnSemi [] = [[]]`, matching `''.split(';') == ['']`. -/
def splitOnSemi : List Char → List (List Char)
  | [] => [[]]
  | c :: rest =>
    if c = ';' then [] :: splitOnSemi rest
    else
      match splitOnSemi rest with
      | [] => [[c]]
      | s :: ss => (c :: s) :: ss

/-- The messages `_assemble_buffer` passes to `_parse_message` from a given
buffer content: every non-empty segment of `buffer.split(';')`, in order. -/
def messagesOf (buf : List Char) : List (List Char) :=
  (splitOnSemi buf).filter (fun m => m ≠ [])

/-- `data_received(data)` followed by `_assemble_buffer()`, at the framing
level: `self.buffer += data.decode()`, then every non-empty segment of
`self.buffer.split(';')` is parsed and `self.buffer = ""`.  Returns the new
buffer content and the parsed message sequence. -/
def data_received_frames (buffer data : List Char) : List Char × List (List Char) :=
  (([] : List Char), messagesOf (buffer ++ data))

/-- One `data_received` call folded into an accumulator of
(current buffer, messages parsed so far). -/
def feed_step (acc : List Char × List (List Char)) (chunk : List Char) :
    List Char × List (List Char) :=
  let r := data_received_frames acc.1 chunk
  (r.1, acc.2 ++ r.2)

/-- Feed a sequence of chunks to `data_received` one by one, starting from
the initial empty buffer; returns the final buffer content and the
concatenated ordered sequence of parsed messages. -/
def feed_chunks (chunks : List (List Char)) : List Char × List (List Char) :=
  chunks.foldl feed_step (([] : List Char), ([] : List (List Char)))

theorem splitOnSemi_ne_nil (l : List Char) : splitOnSemi l ≠ [] := by
  cases l with
  | nil => simp [splitOnSemi]
  | cons c rest =>
    simp only [splitOnSemi]
    split
    · simp
    · cases h : splitOnSemi rest <;> simp

/-- Splitting distributes over a `';'` placed between two streams. -/
theorem splitOnSemi_append_semi (a b : List Char) :
    splitOnSemi (a ++ ';' :: b) = splitOnSemi a ++ splitOnSemi b := by
  induction a with
  | nil => simp [splitOnSemi]
  | cons c cs ih =>
    by_cases hc : c = ';'
    · subst hc
      simp [splitOnSemi, ih]
    · simp only [List.cons_append, splitOnSemi, if_neg hc]
      cases h : splitOnSemi cs with
      | nil => exact absurd h (splitOnSemi_ne_nil cs)
      | cons s ss => simp only [List.append_eq]; rw [ih, h]; simp

theorem messagesOf_nil : messagesOf [] = [] := by
  simp [messagesOf, splitOnSemi]

/-- The parsed-message sequence distributes over a `';'` between streams. -/
theorem messagesOf_append_semi (a b : List Char) :
    messagesOf (a ++ ';' :: b) = messagesOf a ++ messagesOf b := by
  simp [messagesOf, splitOnSemi_append_semi, List.filter_append]

theorem eq_append_semi_of_getLast (l : List Char) (h : l.getLast? = some ';') :
    ∃ l', l = l' ++ [';'] := by
  induction l with
  | nil => simp at h
  | cons a t ih =>
    cases t with
    | nil =>
      simp only [List.getLast?_singleton, Option.some.injEq] at h
      exact ⟨[], by simp [h]⟩
    | cons b t' =>
      rw [List.getLast?_cons_cons] at h
      obtain ⟨l', hl⟩ := ih h
      exact ⟨a :: l', by simp [hl]⟩

theorem feed_chunks_foldl (chunks : List (List Char)) :
    ∀ msgs : List (List Char), (∀ c ∈ chunks, c.getLast? = some ';') →
      chunks.foldl feed_step (([] : List Char), msgs)
        = ([], msgs ++ messagesOf chunks.flatten) := by
  induction chunks with
  | nil => intro msgs _; simp [messagesOf_nil]
  | cons c cs ih =>
    intro msgs h
    obtain ⟨c', rfl⟩ := eq_append_semi_of_getLast c (h c (by simp))
    have h' : ∀ x ∈ cs, x.getLast? = some ';' := fun x hx => h x (by simp [hx])
    have hstep : feed_step (([] : List Char), msgs) (c' ++ [';'])
        = ([], msgs ++ messagesOf c') := by
      have : messagesOf (c' ++ [';']) = messagesOf c' := by
        have := messagesOf_append_semi c' []
        simpa [messagesOf_nil] using this
      simp [feed_step, data_received_frames, this]
    rw [List.foldl_cons, hstep, ih (msgs ++ messagesOf c') h']
    have : (c' ++ [';']) ++ cs.flatten = c' ++ ';' :: cs.flatten := by simp
    rw [List.flatten_cons, this, messagesOf_append_semi]
    simp

/-- Claim C1, counterexample: chunk-boundary invariance fails when a chunk
boundary falls inside a message.  Feeding `"P1P"` then `"1;"` parses the
messages `"P1P"` and `"1"`, while feeding `"P1P1;"` whole parses `"P1P1"`;
moreover, after feeding the unterminated chunk `"P1P"` the internal buffer
is cleared rather than retaining `"P1P"` for the next call. -/
theorem C1_chunk_invariance_counterexample :
    (feed_chunks [("P1P".data), ("1;".data)]).2 ≠ (feed_chunks [("P1P1;".data)]).2 ∧
      (feed_chunks [("P1P".data)]).1 = [] := by
  constructor
  · decide
  · decide

/-- Claim C1 (amended): `data_received` parses every non-empty `';'`-separated
segment of the accumulated buffer — including a trailing segment not yet
terminated by `';'` — and then clears the buffer; consequently feeding the
chunks one by one produces the same ordered sequence of non-empty parsed
messages as feeding the whole stream in one chunk exactly when the split
points fall at delimiter boundaries, i.e. when every chunk ends with `';'`. -/
theorem C1_chunk_invariance_at_delimiters (chunks : List (List Char))
    (h : ∀ c ∈ chunks, c.getLast? = some ';') :
    feed_chunks chunks = feed_chunks [chunks.flatten] := by
  unfold feed_chunks
  rw [feed_chunks_foldl chunks [] h]
  simp [feed_step, data_received_frames]

/-- Claim C1 witness: the amended invariance at a concrete delimiter-aligned
split of the stream `"P1P1;P1M0;"`. -/
theorem C1_chunk_invariance_at_delimiters_witness :
    feed_chunks [("P1P1;".data), ("P1M0;".data)]
      = feed_chunks [(["P1P1;".data, "P1M0;".data] : List (List Char)).flatten] :=
  C1_chunk_invariance_at_delimiters ["P1P1;".data, "P1M0;".data] (by decide)

/-!
## Device state and attribute registry

`LOOKUP` maps each attribute key to its description/value labels; only the
keys (in insertion order, which drives the `for key in LOOKUP` scans) and
the `P1P` labels matter for behaviour, the rest is logging.  `ATTR_CORE`
is the set of keys queryable regardless of power state.  The per-key
instance attributes `self._P1P`, `self._P1VM`, `self._P1S`, `self._P1M`
created by `setattr(self, '_'+key, '')` are the fields of `AVRState`.
-/

/-- The keys of `LOOKUP`, in insertion order. -/
def LOOKUP_keys : List String := ["P1P", "P1VM", "P1S", "P1M"]

/-- `ATTR_CORE = {'P1P'}`. -/
def ATTR_CORE : List String := ["P1P"]

/-- The mutable state of an `AVR` handler.  `transport` is `none` when no
transport is connected, otherwise `some writes` with the ordered list of
strings handed to `transport.write`; `scheduled` and `notifications` log
`loop.call_later` and `loop.call_soon(update_callback, ·)` calls.
`hasUpdateCallback` records whether an `update_callback` was supplied. -/
structure AVRState where
  P1P : String
  P1VM : String
  P1S : String
  P1M : String
  poweron_refresh_successful : Bool
  buffer : List Char
  transport : Option (List String)
  hasUpdateCallback : Bool
  scheduled : List (Nat × Scheduled)
  notifications : List String
deriving DecidableEq

/-- `getattr(self, '_' + key)`: `none` models the `AttributeError` raised
when no such instance attribute exists. -/
def getAttr (s : AVRState) (key : String) : Option String :=
  if key = "P1P" then some s.P1P
  else if key = "P1VM" then some s.P1VM
  else if key = "P1S" then some s.P1S
  else if key = "P1M" then some s.P1M
  else none

/-- `setattr(self, '_' + key, v)` for the keys created in `__init__`. -/
def setAttr (s : AVRState) (key : String) (v : String) : AVRState :=
  if key = "P1P" then { s with P1P := v }
  else if key = "P1VM" then { s with P1VM := v }
  else if key = "P1S" then { s with P1S := v }
  else if key = "P1M" then { s with P1M := v }
  else s

/-!
## Command/query encoder (`formatted_command`, `command`, `query`)
-/

/-- `self.transport.write(command.encode())`: fails with `AttributeError`
when `self.transport` is `None`, otherwise hands the encoded string to the
transport. -/
def transport_write (s : AVRState) (data : String) : Except PyError AVRState :=
  match s.transport with
  | none => .error .attributeError
  | some writes => .ok { s with transport := some (writes ++ [data]) }

/-- `formatted_command`: encodes the command and writes it to the transport
inside `try: ... except:` — any failure (no transport) is logged and
swallowed, leaving the state unchanged. -/
def formatted_command (s : AVRState) (command : String) : AVRState :=
  match transport_write s command with
  | .ok s' => s'
  | .error _ => s

/-- `command`: appends the terminating `';'` and sends. -/
def command (s : AVRState) (cmd : String) : AVRState :=
  formatted_command s (cmd ++ ";")

/-- `query`: rewrites the pseudo-key `'P1VM'` to `'P1V?'`, otherwise appends
`'?'`, then sends via `command`. -/
def query (s : AVRState) (item : String) : AVRState :=
  command s (if item = "P1VM" then "P1V?" else item ++ "?")

/-- `refresh_all`: queries every key in `LOOKUP`, in order. -/
def refresh_all (s : AVRState) : AVRState :=
  LOOKUP_keys.foldl query s

/-- `refresh_core`: queries every key in `ATTR_CORE`. -/
def refresh_core (s : AVRState) : AVRState :=
  ATTR_CORE.foldl query s

/-- `poweron_refresh`: if the power-on refresh already succeeded, return;
otherwise run `refresh_all` and reschedule itself with
`loop.call_later(2, self.poweron_refresh)`. -/
def poweron_refresh (s : AVRState) : AVRState :=
  if s.poweron_refresh_successful then s
  else
    let s1 := refresh_all s
    { s1 with scheduled := s1.scheduled ++ [(2, Scheduled.poweronRefreshCb)] }

/-- `__init__`: every `LOOKUP` key's attribute is set to `''`, then
`self._P1P = '0'`, then `refresh_all()` runs (with no transport yet, so all
its writes are swallowed). -/
def initial_state (update_callback : Bool) : AVRState :=
  refresh_all
    { P1P := "0", P1VM := "", P1S := "", P1M := ""
      poweron_refresh_successful := false
      buffer := []
      transport := none
      hasUpdateCallback := update_callback
      scheduled := []
      notifications := [] }

/-- `connection_made(transport)`: stores the transport and runs
`refresh_core()`. -/
def connection_made (s : AVRState) (writes : List String) : AVRState :=
  refresh_core { s with transport := some writes }

/-- A handler (with an update callback) right after `connection_made` on a
fresh transport. -/
def connected_state : AVRState :=
  connection_made (initial_state true) []

/-!
## Message interpreter (`_parse_message`)

Python `str` operations are modelled on the character sequence
(`String.data`), which keeps them computable by the kernel:
`pyStartsWith`/`pyDrop`/`pyLen` model `str.startswith`, slicing
`data[len(key):]` and `len`.
-/

/-- Character-list prefix test (structural in the prefix, so that it
reduces even when the tail of the scanned list is not yet known). -/
def charsPrefixOf (p l : List Char) : Bool :=
  match p with
  | [] => true
  | a :: ps =>
    match l with
    | [] => false
    | b :: ls => a == b && charsPrefixOf ps ls

/-- `data.startswith(pre)`. -/
def pyStartsWith (s pre : String) : Bool :=
  charsPrefixOf pre.data s.data

/-- The slice `s[n:]`. -/
def pyDrop (s : String) (n : Nat) : String :=
  { data := s.data.drop n }

/-- `len(s)`. -/
def pyLen (s : String) : Nat :=
  s.data.length

/-- The local flags of one `_parse_message` run. -/
structure ParseResult where
  recognized : Bool
  newdata : Bool
deriving DecidableEq

/-- The body of the registry-scan arm of `_parse_message`, for the first
`LOOKUP` key that is a prefix of `data`: `value = data[len(key):]` is read,
compared with `oldvalue = getattr(self, '_'+key)`, always stored back with
`setattr`, the two `P1P` power-edge conditionals run, and `newdata` decides
whether `loop.call_soon(update_callback, data)` fires. -/
def registry_update (s : AVRState) (data key : String) : AVRState × ParseResult :=
  let value := pyDrop data (pyLen key)
  let oldvalue := (getAttr s key).getD ""
  let newdata : Bool := oldvalue ≠ value
  let s1 := setAttr s key value
  let s2 :=
    if key = "P1P" ∧ value = "1" ∧ oldvalue = "0" then
      { s1 with poweron_refresh_successful := false
                scheduled := s1.scheduled ++ [(1, Scheduled.poweronRefreshCb)] }
    else s1
  let s3 :=
    if key = "P1P" ∧ value = "0" ∧ oldvalue = "1" then
      { s2 with poweron_refresh_successful := false }
    else s2
  let s4 :=
    if newdata ∧ s3.hasUpdateCallback then
      { s3 with notifications := s3.notifications ++ [data] }
    else s3
  (s4, ⟨true, newdata⟩)

/-- `_parse_message(data)`.  The `'Main Off'` branch executes
`oldvalue = getattr(self, '_')`; since no attribute named `'_'` is ever
assigned, that lookup raises `AttributeError` (modelled via `getAttr s ""`,
which is `none`) before the rest of the branch can run.  The registry scan
takes the first `LOOKUP` key that is a prefix of the message and runs
`registry_update`; with no match, nothing is recognized. -/
def _parse_message (s : AVRState) (data : String) :
    Except PyError (AVRState × ParseResult) :=
  if pyStartsWith data "Invalid Command" then .ok (s, ⟨true, false⟩)
  else if pyStartsWith data "Parameter Out-of-range" then .ok (s, ⟨true, false⟩)
  else if pyStartsWith data "Main Off" then
    match getAttr s "" with
    | none => .error .attributeError
    | some _ => .ok (s, ⟨true, false⟩)
  else if pyStartsWith data "Zone2 Off" then .ok (s, ⟨true, false⟩)
  else
    match LOOKUP_keys.find? (fun key => pyStartsWith data key) with
    | none => .ok (s, ⟨false, false⟩)
    | some key => .ok (registry_update s data key)

/-!
## Value parsing and the derived getters/setters

`int(value)` on a Python `str` strips surrounding whitespace and accepts an
optional sign followed by at least one decimal digit; anything else raises
`ValueError`.  `pyIntOfString` returns `none` exactly when `int(value)`
raises `ValueError`.
-/

/-- ASCII whitespace stripped by Python's `int(str)`. -/
def pyIsSpace (c : Char) : Bool :=
  c = ' ' ∨ c = '\t' ∨ c = '\n' ∨ c = '\r' ∨ c = '\x0b' ∨ c = '\x0c'

/-- Surrounding-whitespace strip, as applied by `int(str)`. -/
def pyStripChars (cs : List Char) : List Char :=
  ((cs.dropWhile pyIsSpace).reverse.dropWhile pyIsSpace).reverse

/-- A non-empty all-digit character list read as a decimal `Nat`. -/
def parseDigits (cs : List Char) : Option Nat :=
  if cs = [] then none
  else if cs.all Char.isDigit then
    some (cs.foldl (fun n c => n * 10 + (c.toNat - 48)) 0)
  else none

/-- Python `int(str)`, returning `none` where Python raises `ValueError`. -/
def pyIntOfString (str : String) : Option Int :=
  match pyStripChars str.data with
  | '+' :: cs => (parseDigits cs).map (fun n => (n : Int))
  | '-' :: cs => (parseDigits cs).map (fun n => -(n : Int))
  | cs => (parseDigits cs).map (fun n => (n : Int))

/-- The `attenuation` property getter: `int(self._P1VM)`, defaulting to
`-90` when the conversion fails. -/
def attenuation (s : AVRState) : Int :=
  match pyIntOfString s.P1VM with
  | some v => v
  | none => -90

/-- `_get_boolean(key)`: `bool(int(getattr(self, '_'+key)))`, with
`ValueError` and `AttributeError` both giving `False`. -/
def _get_boolean (s : AVRState) (key : String) : Bool :=
  match getAttr s key with
  | none => false
  | some value =>
    match pyIntOfString value with
    | none => false
    | some n => n ≠ 0

/-- The `power` property getter. -/
def power (s : AVRState) : Bool :=
  _get_boolean s "P1P"

/-- The `mute` property getter. -/
def mute (s : AVRState) : Bool :=
  _get_boolean s "P1M"

/-- `_get_integer(key)`: when the attribute exists, `int(value)` with
`ValueError` giving `None`; when it does not exist, the local `value` is
unbound and the uncaught `UnboundLocalError` propagates (modelled as
`.error .nameError`). -/
def _get_integer (s : AVRState) (key : String) : Except PyError (Option Int) :=
  match getAttr s key with
  | some value => .ok (pyIntOfString value)
  | none => .error .nameError

/-- The `input_number` property getter. -/
def input_number (s : AVRState) : Except PyError (Option Int) :=
  _get_integer s "P1S"

/-- `_set_boolean(key, value)`: send `key+'1'` for `True`, `key+'0'`
otherwise. -/
def _set_boolean (s : AVRState) (key : String) (value : Bool) : AVRState :=
  if value then command s (key ++ "1") else command s (key ++ "0")

/-- The `power` property setter: the source calls
`self._set_boolean('P1P', value)` twice in a row. -/
def set_power (s : AVRState) (value : Bool) : AVRState :=
  _set_boolean (_set_boolean s "P1P" value) "P1P" value

/-- The `mute` property setter: a single `self._set_boolean('P1M', value)`. -/
def set_mute (s : AVRState) (value : Bool) : AVRState :=
  _set_boolean s "P1M" value

/-!
## Volume/attenuation conversion

Python floats are IEEE-754 binary64 values; they are modelled here by
their exact rational values.  Each arithmetic operation performs the exact
rational operation and then rounds the result to the nearest representable
double (round to nearest, ties to even) via `toDouble`.  Python 3
`round(x)` rounds the exact value of the double half-to-even
(`pythonRound`).  The source's `try/except ValueError` around the integer
conversions never fires on the integer inputs considered here.
-/

/-- Round a rational to the nearest integer, ties to even: the exact
behaviour of Python 3 `round` (the argument, a binary64 value, is itself
an exact rational). -/
def pythonRound (q : ℚ) : ℤ :=
  if q - (⌊q⌋ : ℚ) < 1 / 2 then ⌊q⌋
  else if 1 / 2 < q - (⌊q⌋ : ℚ) then ⌊q⌋ + 1
  else if ⌊q⌋ % 2 = 0 then ⌊q⌋ else ⌊q⌋ + 1

/-- Round a rational to the nearest IEEE-754 binary64 value (round to
nearest, ties to even) and return that value as an exact rational: with
`e = Int.log 2 |q| - 52` the scaled value `q / 2^e` lies in `[2^52, 2^53)`,
so rounding it to the nearest integer (ties to the even significand) and
scaling back is exactly double-precision rounding for every value in the
normal range — which covers all values arising in these conversions. -/
def toDouble (q : ℚ) : ℚ :=
  if q = 0 then 0
  else (pythonRound (q / 2 ^ (Int.log 2 |q| - 52)) : ℚ) * 2 ^ (Int.log 2 |q| - 52)

/-- Python float division: exact division, rounded to the nearest double. -/
def pyFloat_div (a b : ℚ) : ℚ :=
  toDouble (a / b)

/-- Python float multiplication, rounded to the nearest double. -/
def pyFloat_mul (a b : ℚ) : ℚ :=
  toDouble (a * b)

/-- Python float addition, rounded to the nearest double. -/
def pyFloat_add (a b : ℚ) : ℚ :=
  toDouble (a + b)

/-- `attenuation_to_volume(value) = round((90.00 + int(value)) / 90 * 100)`,
with each float operation rounding to binary64. -/
def attenuation_to_volume (value : ℤ) : ℤ :=
  pythonRound (pyFloat_mul (pyFloat_div (pyFloat_add 90 (value : ℚ)) 90) 100)

/-- `volume_to_attenuation(value) = round((value / 100) * 90) - 90`,
with each float operation rounding to binary64. -/
def volume_to_attenuation (value : ℤ) : ℤ :=
  pythonRound (pyFloat_mul (pyFloat_div (value : ℚ) 100) 90) - 90

/-- A state in which every stored raw attribute value is still the empty
string (the per-key default before any device response). -/
def blank_state : AVRState :=
  { P1P := "", P1VM := "", P1S := "", P1M := ""
    poweron_refresh_successful := false
    buffer := []
    transport := none
    hasUpdateCallback := false
    scheduled := []
    notifications := [] }

theorem charsPrefixOf_exists (l1 l2 : List Char) (h : charsPrefixOf l1 l2 = true) :
    ∃ t, l2 = l1 ++ t := by
  induction l1 generalizing l2 with
  | nil => exact ⟨l2, rfl⟩
  | cons a as ih =>
    cases l2 with
    | nil => simp [charsPrefixOf] at h
    | cons b bs =>
      simp only [charsPrefixOf, Bool.and_eq_true, beq_iff_eq] at h
      obtain ⟨t, ht⟩ := ih bs h.2
      exact ⟨t, by simp [h.1, ht]⟩

theorem setAttr_unchanged (s : AVRState) (k v : String) :
    (setAttr s k v).scheduled = s.scheduled ∧
    (setAttr s k v).notifications = s.notifications ∧
    (setAttr s k v).poweron_refresh_successful = s.poweron_refresh_successful ∧
    (setAttr s k v).hasUpdateCallback = s.hasUpdateCallback := by
  unfold setAttr
  repeat' split
  all_goals exact ⟨rfl, rfl, rfl, rfl⟩

/-- A key returned by the registry scan is one of the four `LOOKUP` keys. -/
theorem find_key_cases (data key : String)
    (h : LOOKUP_keys.find? (fun k => pyStartsWith data k) = some key) :
    key = "P1P" ∨ key = "P1VM" ∨ key = "P1S" ∨ key = "P1M" := by
  have := List.mem_of_find?_eq_some h
  simpa [LOOKUP_keys] using this

/-- The registry scan always stores the remainder of the message as the new
raw value of the matched key, whether or not it changed. -/
theorem registry_update_stores (s : AVRState) (data key : String)
    (hk : key = "P1P" ∨ key = "P1VM" ∨ key = "P1S" ∨ key = "P1M") :
    getAttr (registry_update s data key).1 key
      = some (pyDrop data (pyLen key)) := by
  rcases hk with rfl | rfl | rfl | rfl <;>
    simp [registry_update, getAttr, setAttr, apply_ite AVRState.P1P,
      apply_ite AVRState.P1VM, apply_ite AVRState.P1S, apply_ite AVRState.P1M,
      apply_ite AVRState.hasUpdateCallback, ite_self]

/-- Re-running the registry scan when the stored value already equals the
message remainder rewrites the same value, reports `newdata = false`, and
leaves the state untouched. -/
theorem registry_update_second (s : AVRState) (data key : String)
    (hk : key = "P1P" ∨ key = "P1VM" ∨ key = "P1S" ∨ key = "P1M")
    (hv : getAttr s key = some (pyDrop data (pyLen key))) :
    registry_update s data key = (s, ⟨true, false⟩) := by
  rcases hk with rfl | rfl | rfl | rfl <;>
    (simp [getAttr] at hv;
     simp [registry_update, getAttr, setAttr, ← hv];
     try clear hv;
     try (repeat' split))
  all_goals
    first
    | rfl
    | (rename_i h; exact absurd (h.1.symm.trans h.2) (by decide))
    | (rename_i h1 h2; exact absurd (h1.1.symm.trans h1.2) (by decide))

/-- The registry scan appends the 1-delay `poweron_refresh` timer exactly
when the matched key is `P1P`, the new value is `"1"` and the stored value
was `"0"`; otherwise the `scheduled` log is untouched. -/
theorem registry_update_sched (s : AVRState) (data key : String)
    (hk : key = "P1P" ∨ key = "P1VM" ∨ key = "P1S" ∨ key = "P1M") :
    ((registry_update s data key).1.scheduled = s.scheduled ∧
      ¬(key = "P1P" ∧ pyDrop data (pyLen key) = "1" ∧ s.P1P = "0")) ∨
    ((registry_update s data key).1.scheduled
        = s.scheduled ++ [(1, Scheduled.poweronRefreshCb)] ∧
      key = "P1P" ∧ pyDrop data (pyLen key) = "1" ∧ s.P1P = "0") := by
  rcases hk with rfl | rfl | rfl | rfl
  case inl =>
    by_cases hcond : pyDrop data (pyLen "P1P") = "1" ∧ s.P1P = "0"
    · refine Or.inr ⟨?_, rfl, hcond.1, hcond.2⟩
      simp [registry_update, getAttr, setAttr, hcond.1, hcond.2,
        apply_ite AVRState.scheduled, ite_self]
    · refine Or.inl ⟨?_, by simpa using hcond⟩
      simp [registry_update, getAttr, setAttr,
        apply_ite AVRState.scheduled, ite_self]
      intro hv ho
      exact absurd ⟨hv, ho⟩ hcond
  all_goals
    refine Or.inl ⟨?_, by simp⟩
  all_goals
    simp [registry_update, getAttr, setAttr,
      apply_ite AVRState.scheduled, ite_self]

/-!
## Claims
-/

/-- Claim C2 (evidence of the code bug): interpreting a message beginning
with the literal `"Main Off"` does not terminate normally — the branch reads
the never-assigned attribute `'_'` via `getattr(self, '_')` and so raises
`AttributeError` instead of being log-only. -/
theorem C2_main_off_branch_raises (s : AVRState) (data : String)
    (h : pyStartsWith data "Main Off" = true) :
    _parse_message s data = .error PyError.attributeError := by
  obtain ⟨cs⟩ := data
  obtain ⟨t, rfl⟩ := charsPrefixOf_exists _ _ h
  rfl

/-- Claim C2 witness: the failing input `"Main Off"` itself. -/
theorem C2_main_off_branch_raises_witness :
    _parse_message (initial_state true) "Main Off" = .error PyError.attributeError :=
  C2_main_off_branch_raises (initial_state true) "Main Off" (by decide)

/-- Claim C3: a parsed `P1P` message whose stored value transitions from
`"0"` to `"1"` clears the reconciliation-succeeded flag and schedules the
`poweron_refresh` callback exactly once with a 1-time-unit delay; a
`"1" → "0"` transition clears the flag and schedules nothing; and no other
parsed message ever schedules the reconciliation callback. -/
theorem C3_power_transition_edges :
    (∀ s : AVRState, s.P1P = "0" →
      ∃ s', _parse_message s "P1P1" = .ok (s', ⟨true, true⟩) ∧
        s'.scheduled = s.scheduled ++ [(1, Scheduled.poweronRefreshCb)] ∧
        s'.poweron_refresh_successful = false) ∧
    (∀ s : AVRState, s.P1P = "1" →
      ∃ s', _parse_message s "P1P0" = .ok (s', ⟨true, true⟩) ∧
        s'.scheduled = s.scheduled ∧
        s'.poweron_refresh_successful = false) ∧
    (∀ (s : AVRState) (data : String) (s' : AVRState) (r : ParseResult),
      _parse_message s data = .ok (s', r) → s'.scheduled ≠ s.scheduled →
      pyStartsWith data "P1P" = true ∧ pyDrop data 3 = "1" ∧ s.P1P = "0" ∧
        s'.scheduled = s.scheduled ++ [(1, Scheduled.poweronRefreshCb)]) := by
  refine ⟨?_, ?_, ?_⟩
  · intro s h
    have hval : pyDrop "P1P1" (pyLen "P1P") = "1" := by decide
    have e : _parse_message s "P1P1" = .ok (registry_update s "P1P1" "P1P") := rfl
    have h2 : (registry_update s "P1P1" "P1P").2 = ⟨true, true⟩ := by
      simp [registry_update, getAttr, h, hval]
    refine ⟨(registry_update s "P1P1" "P1P").1, ?_, ?_, ?_⟩
    · rw [e]
      exact congrArg Except.ok (Prod.ext rfl h2)
    · rcases registry_update_sched s "P1P1" "P1P" (Or.inl rfl) with
        ⟨hsch, hnot⟩ | ⟨hsch, _⟩
      · exact absurd ⟨rfl, hval, h⟩ hnot
      · exact hsch
    · simp [registry_update, getAttr, setAttr, h, hval,
        apply_ite AVRState.poweron_refresh_successful, ite_self]
  · intro s h
    have hval : pyDrop "P1P0" (pyLen "P1P") = "0" := by decide
    have e : _parse_message s "P1P0" = .ok (registry_update s "P1P0" "P1P") := rfl
    have h2 : (registry_update s "P1P0" "P1P").2 = ⟨true, true⟩ := by
      simp [registry_update, getAttr, h, hval]
    refine ⟨(registry_update s "P1P0" "P1P").1, ?_, ?_, ?_⟩
    · rw [e]
      exact congrArg Except.ok (Prod.ext rfl h2)
    · rcases registry_update_sched s "P1P0" "P1P" (Or.inl rfl) with
        ⟨hsch, _⟩ | ⟨_, _, hv, _⟩
      · exact hsch
      · rw [hval] at hv
        exact absurd hv (by decide)
    · simp [registry_update, getAttr, setAttr, h, hval,
        apply_ite AVRState.poweron_refresh_successful, ite_self]
  · intro s data s' r he hne
    unfold _parse_message at he
    split at he
    · simp only [Except.ok.injEq, Prod.mk.injEq] at he
      exact absurd (by rw [← he.1]) hne
    split at he
    · simp only [Except.ok.injEq, Prod.mk.injEq] at he
      exact absurd (by rw [← he.1]) hne
    split at he
    · simp [getAttr] at he
    split at he
    · simp only [Except.ok.injEq, Prod.mk.injEq] at he
      exact absurd (by rw [← he.1]) hne
    split at he
    · simp only [Except.ok.injEq, Prod.mk.injEq] at he
      exact absurd (by rw [← he.1]) hne
    next key hfind =>
      simp only [Except.ok.injEq] at he
      have hkey := find_key_cases data key hfind
      have hs' : (registry_update s data key).1 = s' := by rw [he]
      rcases registry_update_sched s data key hkey with
        ⟨hsch, _⟩ | ⟨hsch, hk1, hv, ho⟩
      · rw [hs'] at hsch
        exact absurd hsch hne
      · subst hk1
        refine ⟨?_, hv, ho, ?_⟩
        · have := List.find?_some hfind
          simpa using this
        · rw [← hs']
          exact hsch

/-- Claim C3 witness: `"P1P1"` parsed with stored power `"0"` (the fresh
handler) schedules the reconciliation callback once with delay 1. -/
theorem C3_power_transition_edges_witness :
    pyStartsWith "P1P1" "P1P" = true ∧ pyDrop "P1P1" 3 = "1" ∧
      (initial_state true).P1P = "0" ∧
      (AVRState.mk "1" "" "" "" false [] none true
          [(1, Scheduled.poweronRefreshCb)] ["P1P1"]).scheduled
        = (initial_state true).scheduled ++ [(1, Scheduled.poweronRefreshCb)] :=
  C3_power_transition_edges.2.2 (initial_state true) "P1P1"
    (AVRState.mk "1" "" "" "" false [] none true
      [(1, Scheduled.poweronRefreshCb)] ["P1P1"])
    ⟨true, true⟩ rfl (by decide)

/-- Claim C4: a message matching a registry key always stores the message
remainder as the raw value of that key; re-interpreting the identical
message yields `newdata = false`, emits no change notification, and still
rewrites the same stored value. -/
theorem C4_idempotent_overwrite (s : AVRState) (data key : String)
    (h1 : pyStartsWith data "Invalid Command" = false)
    (h2 : pyStartsWith data "Parameter Out-of-range" = false)
    (h3 : pyStartsWith data "Main Off" = false)
    (h4 : pyStartsWith data "Zone2 Off" = false)
    (h5 : LOOKUP_keys.find? (fun k => pyStartsWith data k) = some key) :
    ∃ s' r1, _parse_message s data = .ok (s', r1) ∧ r1.recognized = true ∧
      getAttr s' key = some (pyDrop data (pyLen key)) ∧
      ∃ s'', _parse_message s' data = .ok (s'', ⟨true, false⟩) ∧
        getAttr s'' key = some (pyDrop data (pyLen key)) ∧
        s''.notifications = s'.notifications := by
  have hk := find_key_cases data key h5
  have e : ∀ t : AVRState, _parse_message t data = .ok (registry_update t data key) := by
    intro t
    simp [_parse_message, h1, h2, h3, h4, h5]
  have hsecond : _parse_message (registry_update s data key).1 data
      = .ok ((registry_update s data key).1, ⟨true, false⟩) := by
    rw [e ((registry_update s data key).1),
      registry_update_second (registry_update s data key).1 data key hk
        (registry_update_stores s data key hk)]
  exact ⟨(registry_update s data key).1, (registry_update s data key).2, e s, rfl,
    registry_update_stores s data key hk, (registry_update s data key).1, hsecond,
    registry_update_stores s data key hk, rfl⟩

/-- Claim C4 witness: the input message `"P1S3"` parsed twice on the fresh
handler. -/
theorem C4_idempotent_overwrite_witness :
    ∃ s' r1, _parse_message (initial_state true) "P1S3" = .ok (s', r1) ∧
      r1.recognized = true ∧
      getAttr s' "P1S" = some (pyDrop "P1S3" (pyLen "P1S")) ∧
      ∃ s'', _parse_message s' "P1S3" = .ok (s'', ⟨true, false⟩) ∧
        getAttr s'' "P1S" = some (pyDrop "P1S3" (pyLen "P1S")) ∧
        s''.notifications = s'.notifications :=
  C4_idempotent_overwrite (initial_state true) "P1S3" "P1S"
    (by decide) (by decide) (by decide) (by decide) (by decide)

theorem pythonRound_intCast (n : ℤ) : pythonRound ((n : ℤ) : ℚ) = n := by
  unfold pythonRound
  rw [Int.floor_intCast]
  norm_num

/-- Python `round` is off by at most one half. -/
theorem pythonRound_err (q : ℚ) : |(pythonRound q : ℚ) - q| ≤ 1 / 2 := by
  have hf1 : ((⌊q⌋ : ℤ) : ℚ) ≤ q := Int.floor_le q
  have hf2 : q < (⌊q⌋ : ℚ) + 1 := Int.lt_floor_add_one q
  unfold pythonRound
  split
  · rename_i h
    rw [abs_le]
    constructor <;> linarith
  split
  · rename_i h h'
    rw [abs_le]
    push_cast
    constructor <;> linarith
  split
  · rename_i h h' h''
    rw [abs_le]
    constructor <;> linarith
  · rename_i h h' h''
    rw [abs_le]
    push_cast
    constructor <;> linarith

/-- `Int.log 2` is determined by a bracketing pair of powers of two. -/
theorem log_two_det (r : ℚ) (E : ℤ) (hr : 0 < r)
    (h1 : (2 : ℚ) ^ E ≤ r) (h2 : r < (2 : ℚ) ^ (E + 1)) :
    Int.log 2 r = E := by
  have hE1 : E ≤ Int.log 2 r := by
    refine (Int.zpow_le_iff_le_log (by norm_num) hr).mp ?_
    exact_mod_cast h1
  have hE2 : Int.log 2 r < E + 1 := by
    refine (Int.lt_zpow_iff_log_lt (by norm_num) hr).mp ?_
    exact_mod_cast h2
  omega

theorem toDouble_zero : toDouble 0 = 0 := by
  rw [toDouble]
  norm_num

/-- Relative-error bound of binary64 rounding: half an ulp, i.e. a factor
`2^(-53)` of the magnitude. -/
theorem toDouble_err (q : ℚ) : |toDouble q - q| ≤ |q| / 2 ^ 53 := by
  rw [toDouble]
  split
  · rename_i h
    rw [h]
    norm_num
  rename_i h0
  have hq : (0 : ℚ) < |q| := abs_pos.mpr h0
  have hpow : (0 : ℚ) < 2 ^ (Int.log 2 |q| - 52) := by positivity
  have key : (pythonRound (q / 2 ^ (Int.log 2 |q| - 52)) : ℚ) * 2 ^ (Int.log 2 |q| - 52) - q
      = ((pythonRound (q / 2 ^ (Int.log 2 |q| - 52)) : ℚ) - q / 2 ^ (Int.log 2 |q| - 52))
          * 2 ^ (Int.log 2 |q| - 52) := by
    field_simp
  rw [key, abs_mul, abs_of_pos hpow]
  have hb := pythonRound_err (q / 2 ^ (Int.log 2 |q| - 52))
  have hlow : (2 : ℚ) ^ (Int.log 2 |q|) ≤ |q| := by
    exact_mod_cast Int.zpow_log_le_self (b := 2) (R := ℚ) (by norm_num) hq
  calc |(pythonRound (q / 2 ^ (Int.log 2 |q| - 52)) : ℚ) - q / 2 ^ (Int.log 2 |q| - 52)|
        * 2 ^ (Int.log 2 |q| - 52)
      ≤ (1 / 2) * 2 ^ (Int.log 2 |q| - 52) :=
        mul_le_mul_of_nonneg_right hb hpow.le
    _ = 2 ^ (Int.log 2 |q|) / 2 ^ 53 := by
        rw [show (1 / 2 : ℚ) = 2 ^ (-1 : ℤ) by
            rw [zpow_neg, zpow_one]
            norm_num,
          ← zpow_add₀ (by norm_num : (2 : ℚ) ≠ 0),
          show (-1 + (Int.log 2 |q| - 52)) = Int.log 2 |q| - 53 by ring,
          zpow_sub₀ (by norm_num : (2 : ℚ) ≠ 0),
          show ((2 : ℚ) ^ (53 : ℤ)) = 2 ^ (53 : ℕ) from zpow_natCast 2 53]
    _ ≤ |q| / 2 ^ 53 := by gcongr

/-- The error bound, with the magnitude weakened to any upper bound. -/
theorem toDouble_err_of_le {z B : ℚ} (hB : |z| ≤ B) :
    |toDouble z - z| ≤ B / 2 ^ 53 :=
  le_trans (toDouble_err z) (by gcongr)

/-- Evaluation rule for `toDouble` once the binade of the input is known. -/
theorem toDouble_eval (q : ℚ) (E : ℤ) (h0 : q ≠ 0)
    (h1 : (2 : ℚ) ^ E ≤ |q|) (h2 : |q| < (2 : ℚ) ^ (E + 1)) :
    toDouble q = (pythonRound (q / 2 ^ (E - 52)) : ℚ) * 2 ^ (E - 52) := by
  rw [toDouble, if_neg h0, log_two_det |q| E (abs_pos.mpr h0) h1 h2]

theorem toDouble_half : toDouble (1 / 2) = 1 / 2 := by
  rw [toDouble_eval (1 / 2) (-1) (by norm_num)
    (by rw [abs_of_pos] <;> norm_num) (by rw [abs_of_pos] <;> norm_num)]
  rw [show (1 / 2 : ℚ) / 2 ^ ((-1 : ℤ) - 52) = ((4503599627370496 : ℤ) : ℚ) by norm_num]
  rw [pythonRound_intCast]
  norm_num

theorem toDouble_one : toDouble 1 = 1 := by
  rw [toDouble_eval 1 0 (by norm_num) (by norm_num) (by norm_num)]
  rw [show (1 : ℚ) / 2 ^ ((0 : ℤ) - 52) = ((4503599627370496 : ℤ) : ℚ) by norm_num]
  rw [pythonRound_intCast]
  norm_num

theorem toDouble_45 : toDouble 45 = 45 := by
  rw [toDouble_eval 45 5 (by norm_num) (by norm_num) (by norm_num)]
  rw [show (45 : ℚ) / 2 ^ ((5 : ℤ) - 52) = ((6333186975989760 : ℤ) : ℚ) by norm_num]
  rw [pythonRound_intCast]
  norm_num

theorem toDouble_50 : toDouble 50 = 50 := by
  rw [toDouble_eval 50 5 (by norm_num) (by norm_num) (by norm_num)]
  rw [show (50 : ℚ) / 2 ^ ((5 : ℤ) - 52) = ((7036874417766400 : ℤ) : ℚ) by norm_num]
  rw [pythonRound_intCast]
  norm_num

theorem toDouble_90 : toDouble 90 = 90 := by
  rw [toDouble_eval 90 6 (by norm_num) (by norm_num) (by norm_num)]
  rw [show (90 : ℚ) / 2 ^ ((6 : ℤ) - 52) = ((6333186975989760 : ℤ) : ℚ) by norm_num]
  rw [pythonRound_intCast]
  norm_num

theorem toDouble_100 : toDouble 100 = 100 := by
  rw [toDouble_eval 100 6 (by norm_num) (by norm_num) (by norm_num)]
  rw [show (100 : ℚ) / 2 ^ ((6 : ℤ) - 52) = ((7036874417766400 : ℤ) : ℚ) by norm_num]
  rw [pythonRound_intCast]
  norm_num

/-- The round trip is within one volume step, by accumulating the binary64
rounding errors (each at most a `2^(-53)` relative error) and the two
half-unit integer roundings through the linear chain. -/
theorem round_trip_bound (v : ℤ) (hl : 0 ≤ v) (hu : v ≤ 100) :
    (attenuation_to_volume (volume_to_attenuation v) - v).natAbs ≤ 1 := by
  have hv0 : (0 : ℚ) ≤ (v : ℚ) := by exact_mod_cast hl
  have hv1 : (v : ℚ) ≤ 100 := by exact_mod_cast hu
  set x1 : ℚ := pyFloat_div (v : ℚ) 100 with hx1def
  set x2 : ℚ := pyFloat_mul x1 90 with hx2def
  set a : ℤ := pythonRound x2 with hadef
  set y1 : ℚ := pyFloat_add 90 ((a - 90 : ℤ) : ℚ) with hy1def
  set y2 : ℚ := pyFloat_div y1 90 with hy2def
  set y3 : ℚ := pyFloat_mul y2 100 with hy3def
  set r : ℤ := pythonRound y3 with hrdef
  have hv2a : volume_to_attenuation v = a - 90 := by
    rw [hadef, hx2def, hx1def]
    rfl
  have ha2v : attenuation_to_volume (a - 90) = r := by
    rw [hrdef, hy3def, hy2def, hy1def]
    rfl
  have f1 : |x1 - (v : ℚ) / 100| ≤ 1 / 2 ^ 53 := by
    rw [hx1def]
    unfold pyFloat_div
    refine toDouble_err_of_le ?_
    rw [abs_le]
    constructor <;> linarith
  obtain ⟨f1a, f1b⟩ := abs_le.mp f1
  have f2 : |x2 - x1 * 90| ≤ 200 / 2 ^ 53 := by
    rw [hx2def]
    unfold pyFloat_mul
    refine toDouble_err_of_le ?_
    rw [abs_le]
    constructor <;> linarith
  obtain ⟨f2a, f2b⟩ := abs_le.mp f2
  obtain ⟨f3a, f3b⟩ := abs_le.mp (pythonRound_err x2)
  rw [← hadef] at f3a f3b
  have hcast : (90 : ℚ) + ((a - 90 : ℤ) : ℚ) = (a : ℚ) := by
    push_cast
    ring
  have f4 : |y1 - (a : ℚ)| ≤ 100 / 2 ^ 53 := by
    rw [hy1def]
    unfold pyFloat_add
    rw [hcast]
    refine toDouble_err_of_le ?_
    rw [abs_le]
    constructor <;> linarith
  obtain ⟨f4a, f4b⟩ := abs_le.mp f4
  have f5 : |y2 - y1 / 90| ≤ 2 / 2 ^ 53 := by
    rw [hy2def]
    unfold pyFloat_div
    refine toDouble_err_of_le ?_
    rw [abs_le]
    constructor <;> linarith
  obtain ⟨f5a, f5b⟩ := abs_le.mp f5
  have f6 : |y3 - y2 * 100| ≤ 200 / 2 ^ 53 := by
    rw [hy3def]
    unfold pyFloat_mul
    refine toDouble_err_of_le ?_
    rw [abs_le]
    constructor <;> linarith
  obtain ⟨f6a, f6b⟩ := abs_le.mp f6
  obtain ⟨f7a, f7b⟩ := abs_le.mp (pythonRound_err y3)
  rw [← hrdef] at f7a f7b
  rw [hv2a, ha2v]
  have hfin1 : ((r - v : ℤ) : ℚ) < 2 := by
    push_cast
    linarith
  have hfin2 : (-2 : ℚ) < ((r - v : ℤ) : ℚ) := by
    push_cast
    linarith
  have h1' : (r - v : ℤ) < 2 := by exact_mod_cast hfin1
  have h2' : (-2 : ℤ) < r - v := by exact_mod_cast hfin2
  omega

theorem v2a_anchor_0 : volume_to_attenuation 0 = -90 := by
  unfold volume_to_attenuation pyFloat_div pyFloat_mul
  rw [show ((0 : ℤ) : ℚ) / 100 = 0 by norm_num, toDouble_zero,
    show (0 : ℚ) * 90 = 0 by norm_num, toDouble_zero,
    show (0 : ℚ) = ((0 : ℤ) : ℚ) by norm_num, pythonRound_intCast]
  norm_num

theorem v2a_anchor_100 : volume_to_attenuation 100 = 0 := by
  unfold volume_to_attenuation pyFloat_div pyFloat_mul
  rw [show ((100 : ℤ) : ℚ) / 100 = 1 by norm_num, toDouble_one,
    show (1 : ℚ) * 90 = 90 by norm_num, toDouble_90,
    show (90 : ℚ) = ((90 : ℤ) : ℚ) by norm_num, pythonRound_intCast]
  norm_num

theorem v2a_anchor_50 : volume_to_attenuation 50 = -45 := by
  unfold volume_to_attenuation pyFloat_div pyFloat_mul
  rw [show ((50 : ℤ) : ℚ) / 100 = 1 / 2 by norm_num, toDouble_half,
    show (1 / 2 : ℚ) * 90 = 45 by norm_num, toDouble_45,
    show (45 : ℚ) = ((45 : ℤ) : ℚ) by norm_num, pythonRound_intCast]
  norm_num

theorem a2v_anchor_neg90 : attenuation_to_volume (-90) = 0 := by
  unfold attenuation_to_volume pyFloat_add pyFloat_div pyFloat_mul
  rw [show (90 : ℚ) + ((-90 : ℤ) : ℚ) = 0 by norm_num, toDouble_zero,
    show (0 : ℚ) / 90 = 0 by norm_num, toDouble_zero,
    show (0 : ℚ) * 100 = 0 by norm_num, toDouble_zero,
    show (0 : ℚ) = ((0 : ℤ) : ℚ) by norm_num, pythonRound_intCast]

theorem a2v_anchor_0 : attenuation_to_volume 0 = 100 := by
  unfold attenuation_to_volume pyFloat_add pyFloat_div pyFloat_mul
  rw [show (90 : ℚ) + ((0 : ℤ) : ℚ) = 90 by norm_num, toDouble_90,
    show (90 : ℚ) / 90 = 1 by norm_num, toDouble_one,
    show (1 : ℚ) * 100 = 100 by norm_num, toDouble_100,
    show (100 : ℚ) = ((100 : ℤ) : ℚ) by norm_num, pythonRound_intCast]

theorem a2v_anchor_neg45 : attenuation_to_volume (-45) = 50 := by
  unfold attenuation_to_volume pyFloat_add pyFloat_div pyFloat_mul
  rw [show (90 : ℚ) + ((-45 : ℤ) : ℚ) = 45 by norm_num, toDouble_45,
    show (45 : ℚ) / 90 = 1 / 2 by norm_num, toDouble_half,
    show (1 / 2 : ℚ) * 100 = 50 by norm_num, toDouble_50,
    show (50 : ℚ) = ((50 : ℤ) : ℚ) by norm_num, pythonRound_intCast]

/-- Fidelity check of the binary64 model at the tie-adjacent input 35:
`(35/100)*90` computed in doubles is slightly below 31.5, so the program
yields attenuation `-59` (where exact rational arithmetic would give
`round(31.5) - 90 = -58`). -/
theorem v2a_at_35 : volume_to_attenuation 35 = -59 := by
  unfold volume_to_attenuation pyFloat_div pyFloat_mul
  have d1 : toDouble (((35 : ℤ) : ℚ) / 100) = 6305039478318694 / 2 ^ 54 := by
    rw [show (((35 : ℤ) : ℚ) / 100) = 7 / 20 by norm_num]
    rw [toDouble_eval (7 / 20) (-2) (by norm_num)
      (by rw [abs_of_pos] <;> norm_num) (by rw [abs_of_pos] <;> norm_num)]
    rw [show (7 / 20 : ℚ) / 2 ^ ((-2 : ℤ) - 52) = 31525197391593472 / 5 by norm_num]
    have hfl : ⌊(31525197391593472 / 5 : ℚ)⌋ = 6305039478318694 := by
      norm_num
    unfold pythonRound
    rw [hfl]
    norm_num
  rw [d1]
  have d2 : toDouble ((6305039478318694 / 2 ^ 54 : ℚ) * 90)
      = 8866461766385663 / 2 ^ 48 := by
    rw [toDouble_eval _ 4 (by norm_num)
      (by rw [abs_of_pos] <;> norm_num) (by rw [abs_of_pos] <;> norm_num)]
    rw [show ((6305039478318694 / 2 ^ 54 : ℚ) * 90) / 2 ^ ((4 : ℤ) - 52)
        = 141863388262170615 / 16 by norm_num]
    have hfl : ⌊(141863388262170615 / 16 : ℚ)⌋ = 8866461766385663 := by
      norm_num
    unfold pythonRound
    rw [hfl]
    norm_num
  rw [d2]
  have hfl : ⌊(8866461766385663 / 2 ^ 48 : ℚ)⌋ = 31 := by
    norm_num
  unfold pythonRound
  rw [hfl]
  norm_num

/-- Claim C5: for every integer volume `v` in `[0, 100]`,
`attenuation_to_volume (volume_to_attenuation v)` differs from `v` by at
most 1, and the three anchor conversions are exact:
`0 ↔ -90`, `100 ↔ 0` and `50 ↔ -45`. -/
theorem C5_attenuation_volume_round_trip :
    (∀ v : ℤ, 0 ≤ v → v ≤ 100 →
      (attenuation_to_volume (volume_to_attenuation v) - v).natAbs ≤ 1) ∧
    volume_to_attenuation 0 = -90 ∧ attenuation_to_volume (-90) = 0 ∧
    volume_to_attenuation 100 = 0 ∧ attenuation_to_volume 0 = 100 ∧
    volume_to_attenuation 50 = -45 ∧ attenuation_to_volume (-45) = 50 :=
  ⟨round_trip_bound, v2a_anchor_0, a2v_anchor_neg90, v2a_anchor_100,
    a2v_anchor_0, v2a_anchor_50, a2v_anchor_neg45⟩

/-- Claim C5 witness: the round-trip bound evaluated at volume 7. -/
theorem C5_attenuation_volume_round_trip_witness :
    (attenuation_to_volume (volume_to_attenuation 7) - 7).natAbs ≤ 1 :=
  C5_attenuation_volume_round_trip.1 7 (by norm_num) (by norm_num)

/-- Claim C6: a `poweron_refresh` invocation with the success flag still
false queries every `LOOKUP` key (a full refresh) and reschedules itself
with a 2-time-unit delay, leaving the flag false; with the flag true it is
a no-op (no queries, no rescheduling), so the loop stops exactly when the
flag becomes true and there is no retry bound. -/
theorem C6_poweron_reconciliation_loop (s : AVRState) (ws : List String)
    (ht : s.transport = some ws) :
    (s.poweron_refresh_successful = true → poweron_refresh s = s) ∧
    (s.poweron_refresh_successful = false →
      (poweron_refresh s).transport
          = some (ws ++ ["P1P?;", "P1V?;", "P1S?;", "P1M?;"]) ∧
      (poweron_refresh s).scheduled
          = s.scheduled ++ [(2, Scheduled.poweronRefreshCb)] ∧
      (poweron_refresh s).poweron_refresh_successful = false) := by
  constructor
  · intro hf
    simp [poweron_refresh, hf]
  · intro hf
    simp [poweron_refresh, hf, refresh_all, LOOKUP_keys, query, command,
      formatted_command, transport_write, ht]

/-- Claim C6 witness: `poweron_refresh` on a freshly connected handler. -/
theorem C6_poweron_reconciliation_loop_witness :
    (connected_state.poweron_refresh_successful = true →
      poweron_refresh connected_state = connected_state) ∧
    (connected_state.poweron_refresh_successful = false →
      (poweron_refresh connected_state).transport
          = some (["P1P?;"] ++ ["P1P?;", "P1V?;", "P1S?;", "P1M?;"]) ∧
      (poweron_refresh connected_state).scheduled
          = connected_state.scheduled ++ [(2, Scheduled.poweronRefreshCb)] ∧
      (poweron_refresh connected_state).poweron_refresh_successful = false) :=
  C6_poweron_reconciliation_loop connected_state ["P1P?;"] rfl

/-- Claim C7: when the stored raw value for the relevant key does not parse
as an integer (the initial empty string included), the `attenuation` getter
returns `-90`, the `power` and `mute` getters return `false`, and the
`input_number` getter returns no value — all without raising. -/
theorem C7_parse_failure_defaults (s : AVRState) :
    (pyIntOfString s.P1VM = none → attenuation s = -90) ∧
    (pyIntOfString s.P1P = none → power s = false) ∧
    (pyIntOfString s.P1M = none → mute s = false) ∧
    (pyIntOfString s.P1S = none → input_number s = .ok none) := by
  refine ⟨fun h => ?_, fun h => ?_, fun h => ?_, fun h => ?_⟩ <;>
    simp [attenuation, power, mute, input_number, _get_boolean, _get_integer,
      getAttr, h]

/-- Claim C7 witness: the getters on a state whose raw values are all the
initial empty string. -/
theorem C7_parse_failure_defaults_witness :
    attenuation blank_state = -90 ∧ power blank_state = false ∧
    mute blank_state = false ∧ input_number blank_state = .ok none :=
  ⟨(C7_parse_failure_defaults blank_state).1 rfl,
    (C7_parse_failure_defaults blank_state).2.1 rfl,
    (C7_parse_failure_defaults blank_state).2.2.1 rfl,
    (C7_parse_failure_defaults blank_state).2.2.2 rfl⟩

/-- Claim C8: with no transport, `formatted_command` (and hence `command`
and `query`) returns with the state completely unchanged even though the
underlying write attempt fails — the failure is swallowed and the caller
sees no error; with a transport, the encoded command is handed to it
fire-and-forget. -/
theorem C8_write_failures_swallowed :
    (∀ (s : AVRState) (cmd : String), s.transport = none →
      transport_write s cmd = .error PyError.attributeError ∧
      formatted_command s cmd = s ∧ command s cmd = s ∧ query s cmd = s) ∧
    (∀ (s : AVRState) (ws : List String) (cmd : String), s.transport = some ws →
      (formatted_command s cmd).transport = some (ws ++ [cmd])) := by
  constructor
  · intro s cmd ht
    refine ⟨?_, ?_, ?_, ?_⟩ <;>
      simp [transport_write, formatted_command, command, query, ht]
  · intro s ws cmd ht
    simp [formatted_command, transport_write, ht]

/-- Claim C8 witness: a swallowed write on the fresh (transportless)
handler and a delivered write on a connected one. -/
theorem C8_write_failures_swallowed_witness :
    (transport_write (initial_state true) "P1P1" = .error PyError.attributeError ∧
      formatted_command (initial_state true) "P1P1" = initial_state true ∧
      command (initial_state true) "P1P1" = initial_state true ∧
      query (initial_state true) "P1P1" = initial_state true) ∧
    (formatted_command connected_state "P1P1;").transport
        = some (["P1P?;"] ++ ["P1P1;"]) :=
  ⟨C8_write_failures_swallowed.1 (initial_state true) "P1P1" rfl,
    C8_write_failures_swallowed.2 connected_state ["P1P?;"] "P1P1;" rfl⟩

/-- Claim C9: `query k` writes `k + "?" + ";"` for every key other than the
pseudo-key `"P1VM"`, `query "P1VM"` writes `"P1V?;"`, and `command s`
writes `s + ";"`. -/
theorem C9_outbound_encoding :
    (∀ (k : String) (s : AVRState) (ws : List String),
      k ≠ "P1VM" → s.transport = some ws →
      (query s k).transport = some (ws ++ [k ++ "?" ++ ";"])) ∧
    (∀ (s : AVRState) (ws : List String), s.transport = some ws →
      (query s "P1VM").transport = some (ws ++ ["P1V?;"])) ∧
    (∀ (s : AVRState) (ws : List String) (cmd : String), s.transport = some ws →
      (command s cmd).transport = some (ws ++ [cmd ++ ";"])) := by
  refine ⟨fun k s ws hk ht => ?_, fun s ws ht => ?_, fun s ws cmd ht => ?_⟩
  · simp [query, command, formatted_command, transport_write, ht, hk]
  · simp [query, command, formatted_command, transport_write, ht]
  · simp [command, formatted_command, transport_write, ht]

/-- Claim C9 witness: the encodings of `query "P1M"`, `query "P1VM"` and
`command "P1V-50"` on a connected handler. -/
theorem C9_outbound_encoding_witness :
    (query connected_state "P1M").transport
        = some (["P1P?;"] ++ ["P1M" ++ "?" ++ ";"]) ∧
    (query connected_state "P1VM").transport = some (["P1P?;"] ++ ["P1V?;"]) ∧
    (command connected_state "P1V-50").transport
        = some (["P1P?;"] ++ ["P1V-50" ++ ";"]) :=
  ⟨C9_outbound_encoding.1 "P1M" connected_state ["P1P?;"] (by decide) rfl,
    C9_outbound_encoding.2.1 connected_state ["P1P?;"] rfl,
    C9_outbound_encoding.2.2 connected_state ["P1P?;"] "P1V-50" rfl⟩

/-- Claim C10: one assignment to the `power` property hands the write sink
two identical command strings (`"P1P1;"` twice for `True`, `"P1P0;"` twice
for `False`), while one assignment to `mute` hands it exactly one. -/
theorem C10_power_setter_sends_twice (s : AVRState) (ws : List String)
    (ht : s.transport = some ws) :
    (set_power s true).transport = some (ws ++ ["P1P1;", "P1P1;"]) ∧
    (set_power s false).transport = some (ws ++ ["P1P0;", "P1P0;"]) ∧
    (set_mute s true).transport = some (ws ++ ["P1M1;"]) ∧
    (set_mute s false).transport = some (ws ++ ["P1M0;"]) := by
  refine ⟨?_, ?_, ?_, ?_⟩ <;>
    simp [set_power, set_mute, _set_boolean, command, formatted_command,
      transport_write, ht]

/-- Claim C10 witness: the setters on a connected handler. -/
theorem C10_power_setter_sends_twice_witness :
    (set_power connected_state true).transport
        = some (["P1P?;"] ++ ["P1P1;", "P1P1;"]) ∧
    (set_power connected_state false).transport
        = some (["P1P?;"] ++ ["P1P0;", "P1P0;"]) ∧
    (set_mute connected_state true).transport
        = some (["P1P?;"] ++ ["P1M1;"]) ∧
    (set_mute connected_state false).transport
        = some (["P1P?;"] ++ ["P1M0;"]) :=
  C10_power_setter_sends_twice connected_state ["P1P?;"] rfl

end Anthemav
